import Mathlib

/-
Verification of the diagnostic script `debug.py` (repository aethergraph-docs).

The script splits a dotted path into a module portion and a class name,
attempts a dynamic module import, attempts an attribute lookup on the loaded
module, and prints success or categorized failure information, guarded by
three exception handlers (ImportError, AttributeError, generic Exception).

The embedding below models:
  - Python exception values relevant to the script (`PyExc`);
  - a loaded module object (`PyModule`: its `__name__`, `__file__` and the
    member names enumerated by `dir`);
  - the host runtime as an abstract environment (`Env`): `importlib.import_module`
    either yields a loaded module or raises an exception (the module body runs
    arbitrary code, so any exception type may come out of the import step),
    plus `sys.executable` and `sys.path`;
  - `str.rsplit(".", 1)` (`rsplit1`) and tuple-unpacking semantics;
  - the whole script as a function from the environment and the target string
    to a trace of observable effects (console lines and resolution calls) and
    a final outcome (normal termination, or an uncaught exception escaping the
    handlers).
-/

/-- Python exception values, by the types the script's handlers distinguish:
`ImportError` (line 24), `AttributeError` (line 27), and the remaining types
all caught by the generic `except Exception` (line 31); `ValueError` (raised
by tuple unpacking) and `NameError` (raised by referencing an unbound local)
are singled out because the script can produce them. -/
inductive PyExc where
  | importError (msg : String)
  | attributeError (msg : String)
  | valueError (msg : String)
  | nameError (msg : String)
  | otherExc (msg : String)
deriving DecidableEq, Repr

/-- The message carried by an exception: models Python `str(e)` as used by the
f-strings in the handlers. -/
def PyExc.msg : PyExc → String
  | .importError m => m
  | .attributeError m => m
  | .valueError m => m
  | .nameError m => m
  | .otherExc m => m

/-- A loaded Python module object, as the script observes it: `__name__`
(line 22), `__file__` (line 17), and the member names that `dir(mod)`
enumerates (line 30).  `getattr(mod, a)` succeeds exactly when `a` is among
these members. -/
structure PyModule where
  name : String
  file : String
  attrs : List String
deriving DecidableEq, Repr

/-- The host runtime, treated as an external collaborator: `loadModule`
models `importlib.import_module` (a loaded module, or a raised exception —
of any type, since importing executes the module body), `executable` models
`sys.executable` and `searchPath` models `sys.path`. -/
structure Env where
  loadModule : String → Except PyExc PyModule
  executable : String
  searchPath : List String

/-- Splits a character list at the first occurrence of `sep`: `none` when
`sep` does not occur, otherwise the parts strictly before and after the first
occurrence. Helper for `rsplit1` (applied to the reversed list). -/
def splitFirst (sep : Char) : List Char → Option (List Char × List Char)
  | [] => none
  | c :: cs =>
    if c = sep then some ([], cs)
    else
      match splitFirst sep cs with
      | none => none
      | some (a, b) => some (c :: a, b)

/-- Embeds Python `s.rsplit(sep, 1)` (line 13): the whole string when `sep`
does not occur, otherwise the prefix before the last occurrence of `sep` and
the suffix after it. -/
def rsplit1 (sep : Char) (s : String) : List String :=
  match splitFirst sep s.data.reverse with
  | none => [s]
  | some (a, b) => [String.mk b.reverse, String.mk a.reverse]

/-- The constant dotted path baked into the script (line 6). -/
def TARGET : String := "aethergraph.services.memory.facade.core.MemoryFacade"

/-- One line of console output, one constructor per `print` statement of the
script, carrying exactly the dynamic parts of its f-string. -/
inductive Line where
  | header (target : String)
  | pythonExecutable (exe : String)
  | sysPath (paths : List String)
  | attemptImport (module_name : String)
  | moduleImported
  | fileLocation (file : String)
  | lookingForClass (class_name : String)
  | classFound
  | properImportPath (path : String)
  | importErrorMsg (msg : String)
  | importErrorHint
  | classNotFound (msg : String)
  | classNotFoundHint (module_name class_name : String)
  | availableContents (attrs : List String)
  | runtimeCrash (msg : String)
  | runtimeCrashHint
deriving DecidableEq, Repr

/-- An observable effect of a run: a console line, one of the three resolution
steps (the split, the import call, the attribute lookup call), or a mutation
of the file system or the environment — the last two are in the vocabulary so
that read-only-ness is a statement, not a tautology of the type. -/
inductive Effect where
  | console (l : Line)
  | splitCall
  | importCall (module_name : String)
  | getattrCall (class_name : String)
  | fileWrite (path contents : String)
  | envWrite (key value : String)
deriving DecidableEq, Repr

/-- Whether an effect leaves all observable state unchanged (console output
and resolution queries do; file-system or environment writes do not). -/
def Effect.readOnly : Effect → Bool
  | .fileWrite _ _ => false
  | .envWrite _ _ => false
  | _ => true

/-- Whether an effect is a resolution step (split, import call or attribute
lookup call), as opposed to console output. -/
def Effect.isStep : Effect → Bool
  | .splitCall => true
  | .importCall _ => true
  | .getattrCall _ => true
  | _ => false

/-- How a run of the script ends: falling off the end normally, or an
exception escaping every handler. -/
inductive ScriptOutcome where
  | normalExit
  | uncaught (e : PyExc)
deriving DecidableEq, Repr

/-- Result of the `try` block (lines 12–22): either it ran to completion, or
an exception was raised, together with which locals were bound at that point
(`module_name`/`class_name` from the unpacking on line 13, `mod` from
the import on line 15) — the handlers reference these locals. -/
inductive TryResult where
  | ok
  | raised (e : PyExc) (module_name class_name : Option String) (mod : Option PyModule)
deriving DecidableEq, Repr

/-- The `try` block (lines 12–22): split the target at its last dot and
unpack into `module_name, class_name` (a dot-free target yields a one-element
list and the unpacking raises `ValueError`), print the attempt line, then call
the loader `import_module`, on success print the import-success lines, call
`getattr`, and on success print the class-found lines. -/
def tryBody (env : Env) (target : String) : List Effect × TryResult :=
  match rsplit1 '.' target with
  | [module_name, class_name] =>
    let pre : List Effect :=
      [.splitCall, .console (.attemptImport module_name), .importCall module_name]
    match env.loadModule module_name with
    | .error e => (pre, .raised e (some module_name) (some class_name) none)
    | .ok mod =>
      let mid : List Effect := pre ++
        [.console .moduleImported, .console (.fileLocation mod.file),
         .console (.lookingForClass class_name), .getattrCall class_name]
      if class_name ∈ mod.attrs then
        (mid ++ [.console .classFound,
                 .console (.properImportPath (mod.name ++ "." ++ class_name))],
         .ok)
      else
        (mid,
         .raised (.attributeError
             ("module " ++ mod.name ++ " has no attribute " ++ class_name))
           (some module_name) (some class_name) (some mod))
  | [_] =>
    ([.splitCall],
     .raised (.valueError "not enough values to unpack (expected 2, got 1)")
       none none none)
  | [] =>
    ([.splitCall],
     .raised (.valueError "not enough values to unpack (expected 2, got 0)")
       none none none)
  | _ =>
    ([.splitCall],
     .raised (.valueError "too many values to unpack (expected 2)")
       none none none)

/-- The exception handlers (lines 24–33), dispatching on the exception type in
source order.  The `AttributeError` handler (lines 27–30) references the
locals `module_name`, `class_name` and `mod`; referencing an unbound local
raises a `NameError`, which — being raised inside a handler — is not caught by
the later clauses of the same `try` statement and escapes. -/
def handleRaised (e : PyExc) (module_name class_name : Option String)
    (mod : Option PyModule) : List Effect × ScriptOutcome :=
  match e with
  | .importError msg =>
    ([.console (.importErrorMsg msg), .console .importErrorHint], .normalExit)
  | .attributeError msg =>
    match module_name, class_name with
    | some mn, some cn =>
      match mod with
      | some m =>
        ([.console (.classNotFound msg), .console (.classNotFoundHint mn cn),
          .console (.availableContents m.attrs)], .normalExit)
      | none =>
        ([.console (.classNotFound msg), .console (.classNotFoundHint mn cn)],
         .uncaught (.nameError "name mod is not defined"))
    | _, _ =>
      ([.console (.classNotFound msg)],
       .uncaught (.nameError "name module_name is not defined"))
  | e =>
    ([.console (.runtimeCrash e.msg), .console .runtimeCrashHint], .normalExit)

/-- The whole script: the three unconditional header prints (lines 8–10),
then the `try` block, then — if an exception was raised — the matching
handler. -/
def runScript (env : Env) (target : String) : List Effect × ScriptOutcome :=
  let header : List Effect :=
    [.console (.header target), .console (.pythonExecutable env.executable),
     .console (.sysPath env.searchPath)]
  match tryBody env target with
  | (body, .ok) => (header ++ body, .normalExit)
  | (body, .raised e mn cn mod) =>
    let handled := handleRaised e mn cn mod
    (header ++ body ++ handled.1, handled.2)

/-- A concrete loaded module, used by the witnesses: the module the script's
baked-in `TARGET` points into, with `MemoryFacade` among its members. -/
def okModule : PyModule :=
  { name := "aethergraph.services.memory.facade.core"
    file := "/opt/aethergraph/services/memory/facade/core.py"
    attrs := ["MemoryFacade", "MemoryRecord"] }

/-- A concrete environment in which exactly the module named by `TARGET`
loads successfully; every other import raises `ImportError`. -/
def envOk : Env :=
  { loadModule := fun n =>
      if n = "aethergraph.services.memory.facade.core" then .ok okModule
      else .error (.importError ("No module named " ++ n))
    executable := "/usr/bin/python3"
    searchPath := ["/opt/aethergraph"] }

/-- A concrete environment in which every import raises `AttributeError`
while the target module body is loading — as a circular import does in
Python ("partially initialized module ... has no attribute ..."). -/
def envLoadRaisesAttr : Env :=
  { loadModule := fun _ =>
      .error (.attributeError
        "partially initialized module brokenpkg has no attribute util")
    executable := "/usr/bin/python3"
    searchPath := [] }

/-- A concrete environment in which every import raises an exception that is
neither an `ImportError` nor an `AttributeError` (e.g. a `ZeroDivisionError`
in the module body). -/
def envLoadCrashes : Env :=
  { loadModule := fun _ => .error (.otherExc "division by zero")
    executable := "/usr/bin/python3"
    searchPath := [] }

/-- If `sep` occurs in `cs`, `splitFirst` finds the first occurrence: it
returns the part strictly before it (which is `sep`-free) and the part
strictly after it. -/
theorem splitFirst_of_mem (sep : Char) (cs : List Char) (h : sep ∈ cs) :
    ∃ a b, splitFirst sep cs = some (a, b) ∧ cs = a ++ sep :: b ∧ sep ∉ a := by
  induction cs with
  | nil => cases h
  | cons c cs ih =>
    by_cases hc : c = sep
    · subst hc
      exact ⟨[], cs, by simp [splitFirst], rfl, by simp⟩
    · have hmem : sep ∈ cs := by
        cases List.mem_cons.mp h with
        | inl h0 => exact absurd h0.symm hc
        | inr h0 => exact h0
      obtain ⟨a, b, hsp, hcs, hna⟩ := ih hmem
      refine ⟨c :: a, b, ?_, ?_, ?_⟩
      · simp [splitFirst, hc, hsp]
      · simp [hcs]
      · intro hctr
        cases List.mem_cons.mp hctr with
        | inl h0 => exact hc h0.symm
        | inr h0 => exact hna h0

/-- If `sep` does not occur in `cs`, `splitFirst` finds nothing. -/
theorem splitFirst_of_not_mem (sep : Char) (cs : List Char) (h : sep ∉ cs) :
    splitFirst sep cs = none := by
  induction cs with
  | nil => rfl
  | cons c cs ih =>
    have hc : ¬ c = sep := fun hc => h (hc ▸ List.mem_cons_self c cs)
    have hcs : sep ∉ cs := fun hm => h (List.mem_cons_of_mem c hm)
    simp [splitFirst, hc, ih hcs]

/-- On a string without the separator, `rsplit1` returns the whole string as
a one-element list — so the two-element unpacking on line 13 fails. -/
theorem rsplit1_of_not_mem (sep : Char) (s : String) (h : sep ∉ s.data) :
    rsplit1 sep s = [s] := by
  have : splitFirst sep s.data.reverse = none :=
    splitFirst_of_not_mem sep s.data.reverse (fun hm => h (List.mem_reverse.mp hm))
  simp [rsplit1, this]

/-- C6: for every target string containing at least one separator dot, the
split produces the module name as the entire prefix before the last dot and
the class name as the suffix after the last dot, so the class name never
contains a dot.  (The decomposition `target = mn ++ "." ++ cn` with `cn`
dot-free characterizes the split point as the last dot.) -/
theorem rsplit1_last_dot (target : String) (h : '.' ∈ target.data) :
    ∃ mn cn : String, rsplit1 '.' target = [mn, cn] ∧
      target = mn ++ "." ++ cn ∧ '.' ∉ cn.data := by
  have hrev : '.' ∈ target.data.reverse := List.mem_reverse.mpr h
  obtain ⟨a, b, hsp, hcs, hna⟩ := splitFirst_of_mem '.' target.data.reverse hrev
  refine ⟨String.mk b.reverse, String.mk a.reverse, ?_, ?_, ?_⟩
  · simp [rsplit1, hsp]
  · apply String.ext
    have h1 : target.data = b.reverse ++ '.' :: a.reverse := by
      have h0 : target.data.reverse.reverse = (a ++ '.' :: b).reverse := by
        rw [hcs]
      simpa using h0
    simp [String.data_append, h1]
  · simpa using hna

/-- Witness for C6 at the script's own target path. -/
theorem rsplit1_last_dot_witness :
    ('.' ∈ TARGET.data) ∧
      (∃ mn cn : String, rsplit1 '.' TARGET = [mn, cn] ∧
        TARGET = mn ++ "." ++ cn ∧ '.' ∉ cn.data) :=
  ⟨by decide, rsplit1_last_dot TARGET (by decide)⟩

/-- C1: for every dotted path whose module portion imports successfully and
whose final segment is an attribute of the loaded module, the script reports
success and prints the module's file location and the proper import path (the
loaded module's name joined with a dot to the class name), and the run ends
normally. -/
theorem resolve_success_reports (env : Env) (target : String)
    (module_name class_name : String) (m : PyModule)
    (hsplit : rsplit1 '.' target = [module_name, class_name])
    (himp : env.loadModule module_name = .ok m)
    (hattr : class_name ∈ m.attrs) :
    runScript env target =
      ([.console (.header target), .console (.pythonExecutable env.executable),
        .console (.sysPath env.searchPath), .splitCall,
        .console (.attemptImport module_name), .importCall module_name,
        .console .moduleImported, .console (.fileLocation m.file),
        .console (.lookingForClass class_name), .getattrCall class_name,
        .console .classFound,
        .console (.properImportPath (m.name ++ "." ++ class_name))],
       .normalExit) := by
  simp [runScript, tryBody, hsplit, himp, hattr]

/-- Witness for C1 in the concrete environment `envOk` at the script's own
`TARGET`. -/
theorem resolve_success_reports_witness :
    (rsplit1 '.' TARGET =
        ["aethergraph.services.memory.facade.core", "MemoryFacade"]) ∧
    (envOk.loadModule "aethergraph.services.memory.facade.core" =
        .ok okModule) ∧
    ("MemoryFacade" ∈ okModule.attrs) ∧
    runScript envOk TARGET =
      ([.console (.header TARGET),
        .console (.pythonExecutable "/usr/bin/python3"),
        .console (.sysPath ["/opt/aethergraph"]), .splitCall,
        .console (.attemptImport "aethergraph.services.memory.facade.core"),
        .importCall "aethergraph.services.memory.facade.core",
        .console .moduleImported,
        .console (.fileLocation "/opt/aethergraph/services/memory/facade/core.py"),
        .console (.lookingForClass "MemoryFacade"), .getattrCall "MemoryFacade",
        .console .classFound,
        .console (.properImportPath
          "aethergraph.services.memory.facade.core.MemoryFacade")],
       .normalExit) :=
  ⟨by decide, rfl, by decide,
    resolve_success_reports envOk TARGET
      "aethergraph.services.memory.facade.core" "MemoryFacade" okModule
      (by decide) rfl (by decide)⟩

/-- C4: for every dotted path whose module segment cannot be loaded (the call
to the loader raises `ImportError`), the script reports a module-resolution failure
(the IMPORT ERROR line and its hint) and terminates normally, raising no
unhandled exception. -/
theorem module_resolution_error_reports (env : Env) (target : String)
    (module_name class_name msg : String)
    (hsplit : rsplit1 '.' target = [module_name, class_name])
    (himp : env.loadModule module_name = .error (.importError msg)) :
    runScript env target =
      ([.console (.header target), .console (.pythonExecutable env.executable),
        .console (.sysPath env.searchPath), .splitCall,
        .console (.attemptImport module_name), .importCall module_name,
        .console (.importErrorMsg msg), .console .importErrorHint],
       .normalExit) := by
  simp [runScript, tryBody, handleRaised, hsplit, himp]

/-- Witness for C4: in `envOk`, the module `missing.mod` does not exist. -/
theorem module_resolution_error_reports_witness :
    (rsplit1 '.' "missing.mod.Thing" = ["missing.mod", "Thing"]) ∧
    (envOk.loadModule "missing.mod" =
        .error (.importError "No module named missing.mod")) ∧
    runScript envOk "missing.mod.Thing" =
      ([.console (.header "missing.mod.Thing"),
        .console (.pythonExecutable "/usr/bin/python3"),
        .console (.sysPath ["/opt/aethergraph"]), .splitCall,
        .console (.attemptImport "missing.mod"), .importCall "missing.mod",
        .console (.importErrorMsg "No module named missing.mod"),
        .console .importErrorHint],
       .normalExit) :=
  ⟨by decide, rfl,
    module_resolution_error_reports envOk "missing.mod.Thing" "missing.mod" "Thing"
      "No module named missing.mod" (by decide) rfl⟩

/-- C5: for every dotted path whose module loads successfully but whose final
segment is not among the module's members, the script reports the
attribute-not-found failure (CLASS NOT FOUND) together with the enumeration
of the module's actual members (`dir(mod)`), and terminates normally. -/
theorem attr_not_found_reports (env : Env) (target : String)
    (module_name class_name : String) (m : PyModule)
    (hsplit : rsplit1 '.' target = [module_name, class_name])
    (himp : env.loadModule module_name = .ok m)
    (hattr : class_name ∉ m.attrs) :
    runScript env target =
      ([.console (.header target), .console (.pythonExecutable env.executable),
        .console (.sysPath env.searchPath), .splitCall,
        .console (.attemptImport module_name), .importCall module_name,
        .console .moduleImported, .console (.fileLocation m.file),
        .console (.lookingForClass class_name), .getattrCall class_name,
        .console (.classNotFound
          ("module " ++ m.name ++ " has no attribute " ++ class_name)),
        .console (.classNotFoundHint module_name class_name),
        .console (.availableContents m.attrs)],
       .normalExit) := by
  simp [runScript, tryBody, handleRaised, hsplit, himp, hattr]

/-- Witness for C5: in `envOk`, the target module loads but has no member
named `Missing`. -/
theorem attr_not_found_reports_witness :
    (rsplit1 '.' "aethergraph.services.memory.facade.core.Missing" =
        ["aethergraph.services.memory.facade.core", "Missing"]) ∧
    (envOk.loadModule "aethergraph.services.memory.facade.core" =
        .ok okModule) ∧
    ("Missing" ∉ okModule.attrs) ∧
    runScript envOk "aethergraph.services.memory.facade.core.Missing" =
      ([.console (.header "aethergraph.services.memory.facade.core.Missing"),
        .console (.pythonExecutable "/usr/bin/python3"),
        .console (.sysPath ["/opt/aethergraph"]), .splitCall,
        .console (.attemptImport "aethergraph.services.memory.facade.core"),
        .importCall "aethergraph.services.memory.facade.core",
        .console .moduleImported,
        .console (.fileLocation "/opt/aethergraph/services/memory/facade/core.py"),
        .console (.lookingForClass "Missing"), .getattrCall "Missing",
        .console (.classNotFound
          "module aethergraph.services.memory.facade.core has no attribute Missing"),
        .console (.classNotFoundHint
          "aethergraph.services.memory.facade.core" "Missing"),
        .console (.availableContents ["MemoryFacade", "MemoryRecord"])],
       .normalExit) :=
  ⟨by decide, rfl, by decide,
    attr_not_found_reports envOk
      "aethergraph.services.memory.facade.core.Missing"
      "aethergraph.services.memory.facade.core" "Missing" okModule
      (by decide) rfl (by decide)⟩

/-- Counterexample to C2: with a target module whose own loading raises an
`AttributeError` (as a circular import does), the script does NOT attribute
the failure to a runtime defect — the full trace contains the CLASS NOT FOUND
report (a missing-attribute condition) and no RUNTIME CRASH line, and the run
even ends with an uncaught `NameError` (line 30 references the never-bound
local `mod`). -/
theorem loading_attr_error_misreported :
    runScript envLoadRaisesAttr "brokenpkg.Thing" =
      ([.console (.header "brokenpkg.Thing"),
        .console (.pythonExecutable "/usr/bin/python3"),
        .console (.sysPath []), .splitCall,
        .console (.attemptImport "brokenpkg"), .importCall "brokenpkg",
        .console (.classNotFound
          "partially initialized module brokenpkg has no attribute util"),
        .console (.classNotFoundHint "brokenpkg" "Thing")],
       .uncaught (.nameError "name mod is not defined")) := by
  decide

/-- C2 (amended): for every target module whose own loading raises an
exception that is neither an `ImportError` nor an `AttributeError`, the
script attributes the failure to a runtime defect (the RUNTIME CRASH report)
and does not report it as a missing-module or missing-attribute condition —
the full trace contains the RUNTIME CRASH line and its hint and no
IMPORT ERROR or CLASS NOT FOUND line, and the run ends normally. -/
theorem loading_crash_attributed (env : Env) (target : String)
    (module_name class_name : String) (e : PyExc)
    (hsplit : rsplit1 '.' target = [module_name, class_name])
    (himp : env.loadModule module_name = .error e)
    (hni : ∀ msg, e ≠ .importError msg)
    (hna : ∀ msg, e ≠ .attributeError msg) :
    runScript env target =
      ([.console (.header target), .console (.pythonExecutable env.executable),
        .console (.sysPath env.searchPath), .splitCall,
        .console (.attemptImport module_name), .importCall module_name,
        .console (.runtimeCrash e.msg), .console .runtimeCrashHint],
       .normalExit) := by
  cases e with
  | importError msg => exact absurd rfl (hni msg)
  | attributeError msg => exact absurd rfl (hna msg)
  | valueError msg => simp [runScript, tryBody, handleRaised, hsplit, himp, PyExc.msg]
  | nameError msg => simp [runScript, tryBody, handleRaised, hsplit, himp, PyExc.msg]
  | otherExc msg => simp [runScript, tryBody, handleRaised, hsplit, himp, PyExc.msg]

/-- Witness for the amended C2: a module body that divides by zero while
loading is reported as a RUNTIME CRASH. -/
theorem loading_crash_attributed_witness :
    (rsplit1 '.' "brokenpkg.Thing" = ["brokenpkg", "Thing"]) ∧
    (envLoadCrashes.loadModule "brokenpkg" =
        .error (.otherExc "division by zero")) ∧
    runScript envLoadCrashes "brokenpkg.Thing" =
      ([.console (.header "brokenpkg.Thing"),
        .console (.pythonExecutable "/usr/bin/python3"),
        .console (.sysPath []), .splitCall,
        .console (.attemptImport "brokenpkg"), .importCall "brokenpkg",
        .console (.runtimeCrash "division by zero"),
        .console .runtimeCrashHint],
       .normalExit) :=
  ⟨by decide, rfl,
    loading_crash_attributed envLoadCrashes "brokenpkg.Thing"
      "brokenpkg" "Thing" (.otherExc "division by zero")
      (by decide) rfl
      (fun msg h => PyExc.noConfusion h) (fun msg h => PyExc.noConfusion h)⟩

/-- Counterexample to C3: not every failure is caught and described — when
the module's own loading raises an `AttributeError`, the `AttributeError`
handler itself raises a `NameError` (line 30 references the unbound local
`mod`) that escapes every handler, so the script does not terminate
normally. -/
theorem handler_raises_uncaught :
    (runScript envLoadRaisesAttr "brokenpkg.Other").2 =
      .uncaught (.nameError "name mod is not defined") := by
  decide

/-- C3 (amended): all three failure categories are caught and described and
the script terminates normally without propagating any exception out of the
handlers, provided the module import does not itself raise an
`AttributeError` (in that one case the `AttributeError` handler references
the unbound local `mod` and an unhandled `NameError` escapes). -/
theorem script_terminates_normally (env : Env) (target : String)
    (h : ∀ module_name class_name,
        rsplit1 '.' target = [module_name, class_name] →
        ∀ msg, env.loadModule module_name ≠ .error (.attributeError msg)) :
    (runScript env target).2 = .normalExit := by
  cases hr : rsplit1 '.' target with
  | nil => simp [runScript, tryBody, handleRaised, hr]
  | cons a tl =>
    cases tl with
    | nil => simp [runScript, tryBody, handleRaised, hr]
    | cons b tl2 =>
      cases tl2 with
      | cons c rest => simp [runScript, tryBody, handleRaised, hr]
      | nil =>
        cases hi : env.loadModule a with
        | error e =>
          cases e with
          | importError msg =>
            simp [runScript, tryBody, handleRaised, hr, hi]
          | attributeError msg => exact absurd hi (h a b hr msg)
          | valueError msg =>
            simp [runScript, tryBody, handleRaised, hr, hi]
          | nameError msg =>
            simp [runScript, tryBody, handleRaised, hr, hi]
          | otherExc msg =>
            simp [runScript, tryBody, handleRaised, hr, hi]
        | ok m =>
          by_cases hb : b ∈ m.attrs
          · simp [runScript, tryBody, handleRaised, hr, hi, hb]
          · simp [runScript, tryBody, handleRaised, hr, hi, hb]

/-- Witness for the amended C3: in `envOk` at the script's own `TARGET`
(where the import succeeds) the run terminates normally. -/
theorem script_terminates_normally_witness :
    (runScript envOk TARGET).2 = .normalExit :=
  script_terminates_normally envOk TARGET (by
    intro module_name class_name hmc msg hctr
    have h0 : rsplit1 '.' TARGET =
        ["aethergraph.services.memory.facade.core", "MemoryFacade"] := by decide
    rw [h0] at hmc
    have hm : module_name = "aethergraph.services.memory.facade.core" :=
      (List.cons.injEq _ _ _ _ ▸ hmc).1.symm
    rw [hm] at hctr
    have h1 : envOk.loadModule "aethergraph.services.memory.facade.core" =
        .ok okModule := rfl
    rw [h1] at hctr
    exact Except.noConfusion hctr)

/-- The exception handlers only print: their trace contains no resolution
step. -/
theorem handleRaised_no_steps (e : PyExc) (mn cn : Option String)
    (mod : Option PyModule) :
    (handleRaised e mn cn mod).1.filter Effect.isStep = [] := by
  cases e <;> cases mn <;> cases cn <;> cases mod <;>
    simp [handleRaised, Effect.isStep]

/-- The exception handlers only print: every effect they produce is
read-only. -/
theorem handleRaised_readOnly (e : PyExc) (mn cn : Option String)
    (mod : Option PyModule) :
    (handleRaised e mn cn mod).1.all Effect.readOnly = true := by
  cases e <;> cases mn <;> cases cn <;> cases mod <;>
    simp [handleRaised, Effect.readOnly]

/-- C7: the operation proceeds in a fixed linear order — the resolution steps
of every run are exactly the split alone, or the split followed by one import
call, or the split followed by one import call followed by one attribute
lookup call, and in the last case the import call succeeded.  In particular
each run makes at most one import attempt and at most one attribute lookup,
with no retry, and the lookup is never attempted unless the import
succeeded. -/
theorem resolution_steps_linear (env : Env) (target : String) :
    (runScript env target).1.filter Effect.isStep = [.splitCall] ∨
    (∃ module_name, (runScript env target).1.filter Effect.isStep =
        [.splitCall, .importCall module_name]) ∨
    (∃ module_name class_name m,
        (runScript env target).1.filter Effect.isStep =
          [.splitCall, .importCall module_name, .getattrCall class_name] ∧
        env.loadModule module_name = .ok m) := by
  cases hr : rsplit1 '.' target with
  | nil =>
    left
    simp [runScript, tryBody, hr, Effect.isStep, handleRaised_no_steps]
  | cons a tl =>
    cases tl with
    | nil =>
      left
      simp [runScript, tryBody, hr, Effect.isStep, handleRaised_no_steps]
    | cons b tl2 =>
      cases tl2 with
      | cons c rest =>
        left
        simp [runScript, tryBody, hr, Effect.isStep, handleRaised_no_steps]
      | nil =>
        cases hi : env.loadModule a with
        | error e =>
          right; left
          exact ⟨a, by
            simp [runScript, tryBody, hr, hi, Effect.isStep,
              handleRaised_no_steps]⟩
        | ok m =>
          right; right
          by_cases hb : b ∈ m.attrs
          · exact ⟨a, b, m, by
              simp [runScript, tryBody, hr, hi, hb, Effect.isStep], hi⟩
          · exact ⟨a, b, m, by
              simp [runScript, tryBody, hr, hi, hb, Effect.isStep,
                handleRaised_no_steps], hi⟩

/-- The `try` block only prints and queries the resolution mechanism: every
effect it produces is read-only. -/
theorem tryBody_readOnly (env : Env) (target : String) :
    (tryBody env target).1.all Effect.readOnly = true := by
  cases hr : rsplit1 '.' target with
  | nil => simp [tryBody, hr, Effect.readOnly]
  | cons a tl =>
    cases tl with
    | nil => simp [tryBody, hr, Effect.readOnly]
    | cons b tl2 =>
      cases tl2 with
      | cons c rest => simp [tryBody, hr, Effect.readOnly]
      | nil =>
        cases hi : env.loadModule a with
        | error e => simp [tryBody, hr, hi, Effect.readOnly]
        | ok m =>
          by_cases hb : b ∈ m.attrs <;>
            simp [tryBody, hr, hi, hb, Effect.readOnly]

/-- C8: the resolve-and-report operation is read-only — every effect of every
run is console output or a resolution query; no run ever contains a
file-system or environment write. -/
theorem runScript_readOnly (env : Env) (target : String) :
    ∀ eff ∈ (runScript env target).1, eff.readOnly = true := by
  have hall : (runScript env target).1.all Effect.readOnly = true := by
    cases ht : tryBody env target with
    | mk body res =>
      have hbody : body.all Effect.readOnly = true := by
        have h0 := tryBody_readOnly env target
        rw [ht] at h0
        exact h0
      cases res with
      | ok =>
        simp [runScript, ht, List.all_append, hbody, Effect.readOnly]
      | raised e mn cn mod =>
        simp [runScript, ht, List.all_append, hbody, Effect.readOnly,
          handleRaised_readOnly]
  intro eff hmem
  exact List.all_eq_true.mp hall eff hmem

/-- C10: in every run, regardless of how resolution later goes, the trace
begins with the three unconditional header prints — the target path, the
interpreter executable, and the module search path — before any parsing
or import step. -/
theorem header_printed_first (env : Env) (target : String) :
    ∃ rest, (runScript env target).1 =
      .console (.header target) :: .console (.pythonExecutable env.executable) ::
        .console (.sysPath env.searchPath) :: rest := by
  cases ht : tryBody env target with
  | mk body res =>
    cases res with
    | ok => exact ⟨body, by simp [runScript, ht]⟩
    | raised e mn cn mod =>
      exact ⟨body ++ (handleRaised e mn cn mod).1, by simp [runScript, ht]⟩

/-- C9: for a target string containing no dot at all, the two-element
unpacking fails inside the guarded block with a `ValueError`, which the
generic handler catches and reports as a RUNTIME CRASH — so a malformed
(dot-free) path is reported exactly like a defect in the target code,
no import is ever attempted, and no exception escapes. -/
theorem dotfree_target_crash_report (env : Env) (target : String)
    (h : '.' ∉ target.data) :
    runScript env target =
      ([.console (.header target), .console (.pythonExecutable env.executable),
        .console (.sysPath env.searchPath), .splitCall,
        .console (.runtimeCrash "not enough values to unpack (expected 2, got 1)"),
        .console .runtimeCrashHint],
       .normalExit) := by
  have hs := rsplit1_of_not_mem '.' target h
  simp [runScript, tryBody, handleRaised, hs, PyExc.msg]

/-- Witness for C9 at the dot-free target `nodots`. -/
theorem dotfree_target_crash_report_witness :
    ('.' ∉ ("nodots" : String).data) ∧
    runScript envOk "nodots" =
      ([.console (.header "nodots"),
        .console (.pythonExecutable "/usr/bin/python3"),
        .console (.sysPath ["/opt/aethergraph"]), .splitCall,
        .console (.runtimeCrash "not enough values to unpack (expected 2, got 1)"),
        .console .runtimeCrashHint],
       .normalExit) :=
  ⟨by decide, dotfree_target_crash_report envOk "nodots" (by decide)⟩

/-- Witness for C8: the split step of the concrete run in `envOk` at `TARGET`
is in the trace and is read-only. -/
theorem runScript_readOnly_witness :
    (Effect.splitCall ∈ (runScript envOk TARGET).1) ∧
      Effect.readOnly .splitCall = true :=
  ⟨by decide, runScript_readOnly envOk TARGET .splitCall (by decide)⟩
